import Mathlib

/-!
Verification of `src/app/log_generator.py` (OTLPJsonFileExporter): a shallow
embedding of the exporter's data model and operations, with theorems settling
the specification's claims about encoding, export error handling, construction,
and shutdown.
-/

namespace OtlpLogGen

/-- One OTLP log record as carried by a `LogData` item: timestamp, severity
number, body text and attribute key-value pairs. -/
structure LogRecordData where
  timestamp : Nat
  severityNumber : Nat
  body : String
  attributes : List (String × String)
deriving DecidableEq

/-- A `LogData` item handed to the exporter: the record plus its resource
attributes and instrumentation-scope name, exactly the inputs `encode_logs`
groups on. -/
structure LogData where
  resource : List (String × String)
  scope : String
  record : LogRecordData
deriving DecidableEq

/-- `ScopeLogs` protobuf message: one instrumentation scope with its records. -/
structure ScopeLogs where
  scope : String
  logRecords : List LogRecordData
deriving DecidableEq

/-- `ResourceLogs` protobuf message: one resource with its scope groups. -/
structure ResourceLogs where
  resource : List (String × String)
  scopeLogs : List ScopeLogs
deriving DecidableEq

/-- `ExportLogsServiceRequest` protobuf message produced by `encode_logs`. -/
structure ExportLogsServiceRequest where
  resourceLogs : List ResourceLogs
deriving DecidableEq

/-- Insert a record into the scope-group list, appending to the existing group
for this scope or creating a new group at the end (insertion order preserved,
as in the encoder's dict-of-lists grouping). -/
def addRecordToScopeLogs : List ScopeLogs → String → LogRecordData → List ScopeLogs
  | [], scope, r => [{ scope := scope, logRecords := [r] }]
  | sl :: rest, scope, r =>
      if sl.scope = scope then { sl with logRecords := sl.logRecords ++ [r] } :: rest
      else sl :: addRecordToScopeLogs rest scope r

/-- Insert one `LogData` into the resource-group list, grouping by resource then
by scope, preserving first-seen order (the encoder's nested defaultdict). -/
def addLogDataToResourceLogs : List ResourceLogs → LogData → List ResourceLogs
  | [], d => [{ resource := d.resource,
                scopeLogs := [{ scope := d.scope, logRecords := [d.record] }] }]
  | rl :: rest, d =>
      if rl.resource = d.resource then
        { rl with scopeLogs := addRecordToScopeLogs rl.scopeLogs d.scope d.record } :: rest
      else rl :: addLogDataToResourceLogs rest d

/-- Model of `opentelemetry...encode_logs`: group the batch by resource and
scope into an `ExportLogsServiceRequest`. A pure, total function of the batch:
it reads no state and performs no I/O, matching the library encoder. -/
def encode_logs (batch : List LogData) : ExportLogsServiceRequest :=
  { resourceLogs := batch.foldl addLogDataToResourceLogs [] }

/-- `OTLPJsonFileExporter._translate_data`: the body is exactly
`return encode_logs(data)`. -/
def _translate_data (data : List LogData) : ExportLogsServiceRequest :=
  encode_logs data

/-- JSON string literal (quoting only; bodies in scope are plain text). -/
def jsonQuote (s : String) : String := "\"" ++ s ++ "\""

/-- Compact JSON object from named fields (protobuf `indent=None` style). -/
def jsonObjFields (fields : List (String × String)) : String :=
  "\x7b" ++ String.intercalate "," (fields.map (fun f => jsonQuote f.1 ++ ":" ++ f.2)) ++ "\x7d"

/-- Compact JSON array. -/
def jsonArray (xs : List String) : String :=
  "[" ++ String.intercalate "," xs ++ "]"

/-- OTLP JSON key-value attribute, `preserving_proto_field_name` style. -/
def attrJson (kv : String × String) : String :=
  jsonObjFields [("key", jsonQuote kv.1),
                 ("value", jsonObjFields [("string_value", jsonQuote kv.2)])]

/-- OTLP JSON for one log record with snake_case proto field names. -/
def logRecordJson (r : LogRecordData) : String :=
  jsonObjFields
    [("time_unix_nano", jsonQuote (toString r.timestamp)),
     ("severity_number", toString r.severityNumber),
     ("body", jsonObjFields [("string_value", jsonQuote r.body)]),
     ("attributes", jsonArray (r.attributes.map attrJson))]

/-- OTLP JSON for one scope group. -/
def scopeLogsJson (sl : ScopeLogs) : String :=
  jsonObjFields
    [("scope", jsonObjFields [("name", jsonQuote sl.scope)]),
     ("log_records", jsonArray (sl.logRecords.map logRecordJson))]

/-- OTLP JSON for one resource group. -/
def resourceLogsJson (rl : ResourceLogs) : String :=
  jsonObjFields
    [("resource", jsonObjFields [("attributes", jsonArray (rl.resource.map attrJson))]),
     ("scope_logs", jsonArray (rl.scopeLogs.map scopeLogsJson))]

/-- Model of `google.protobuf.json_format.MessageToJson` as the source calls it
(`preserving_proto_field_name=True, indent=None`): a deterministic, pure
serializer; an empty message serializes to the empty JSON object, since
protobuf JSON omits empty repeated fields. -/
def MessageToJson (req : ExportLogsServiceRequest) : String :=
  if req.resourceLogs.isEmpty then jsonObjFields []
  else jsonObjFields [("resource_logs", jsonArray (req.resourceLogs.map resourceLogsJson))]

/-- The encoding stage of `export`: `_translate_data` followed by
`MessageToJson`. The source performs no attribute writes and touches no global
in these two calls, so the stage is embedded as state-passing code over an
arbitrary state type that it leaves untouched. -/
def encodingStage {S : Type} (s : S) (batch : List LogData) : String × S :=
  (MessageToJson (_translate_data batch), s)

/-- Observation of one `export` call: the serialized payload, how many sink
write attempts were made, whether the write succeeded, the exception caught by
the `except` block (if any), the warnings emitted on the module logger, and
whether `export` propagated an exception to its caller. -/
structure ExportOutcome where
  payload : String
  writeAttempts : Nat
  delivered : Bool
  caughtError : Option String
  warnings : List String
  raised : Bool
deriving DecidableEq

/-- `OTLPJsonFileExporter.export`: encode the batch, serialize it, then attempt
`self.logger.info(json_str)` once inside `try`; on any exception, the module
logger gets one warning naming the log path and the error, and `export` returns
normally. The sink is the behavior of that `info` call, which may raise. -/
def export' (sink : String → Except String Unit) (log_path : String)
    (batch : List LogData) : ExportOutcome :=
  let service_request := _translate_data batch
  let json_str := MessageToJson service_request
  match sink json_str with
  | Except.ok _ =>
      { payload := json_str, writeAttempts := 1, delivered := true,
        caughtError := Option.none, warnings := [], raised := false }
  | Except.error e =>
      { payload := json_str, writeAttempts := 1, delivered := false,
        caughtError := some e,
        warnings := ["Failed to write logs to file: " ++ log_path ++ ". Error: " ++ e],
        raised := false }

/-- Python values as far as the constructor's kwargs handling inspects them. -/
inductive PyVal where
  | pyNone
  | pyInt (n : Int)
  | pyStr (s : String)
  | pyBool (b : Bool)
  | pyDict (entries : List (String × PyVal))

/-- Module constant `_DEFAULT_LOG_HANDLER_KWARGS`. -/
def _DEFAULT_LOG_HANDLER_KWARGS : List (String × PyVal) :=
  [("maxBytes", PyVal.pyInt (5 * 1024 * 1024)),
   ("backupCount", PyVal.pyInt 5)]

/-- `isinstance(v, dict)`. -/
def isDict : PyVal → Bool
  | PyVal.pyDict _ => true
  | _ => false

/-- The entries of a dict value (only consulted when `isDict` holds). -/
def dictEntries : PyVal → List (String × PyVal)
  | PyVal.pyDict d => d
  | _ => []

/-- Line 46 of the constructor:
`log_handler_kwargs if isinstance(log_handler_kwargs, dict) else _DEFAULT_LOG_HANDLER_KWARGS`. -/
def resolveLogHandlerKwargs (v : PyVal) : List (String × PyVal) :=
  if isDict v then dictEntries v else _DEFAULT_LOG_HANDLER_KWARGS

/-- A logging handler attached to the shared logger: the `StreamHandler` used
for stdout, or an instance constructed by invoking a located handler class on
the log path and kwargs. -/
inductive Handler where
  | stream (target : String)
  | fileHandler (cls : String) (path : String) (kwargs : List (String × PyVal))

/-- Whether a handler is a `StreamHandler` on the stdout stream. -/
def isStreamStdout : Handler → Bool
  | Handler.stream t => t == "stdout"
  | _ => false

/-- The object `pydoc.locate` may return for a dotted name: whether it is a
type, whether it is a subclass of the three permitted handler classes, and what
invoking it on `(log_path, **kwargs)` does (constructs a handler or raises). -/
structure Located where
  isType : Bool
  isHandlerSubclass : Bool
  call : String → List (String × PyVal) → Except String Handler

/-- The constructor's validity check:
`isinstance(klass, type) and issubclass(klass, (...))`, false when `locate`
returned `None`. -/
def classCheckPasses : Option Located → Bool
  | Option.none => false
  | some l => l.isType && l.isHandlerSubclass

/-- `klass(self.log_path, **log_handler_kwargs)`: invoking the located object;
calling `None` raises a `TypeError`. -/
def locateCall (o : Option Located) (path : String) (kwargs : List (String × PyVal)) :
    Except String Handler :=
  match o with
  | Option.none => Except.error "TypeError: NoneType object is not callable"
  | some l => l.call path kwargs

/-- The f-string assigned to `msg` in the invalid-class branch of the
constructor. -/
def invalidMsg (log_handler_cls : String) : String :=
  "Invalid log handler class: " ++ log_handler_cls ++ ". must be a " ++
  "`logging.handlers.RotatingFileHandler` or `logging.handlers.TimedRotatingFileHandler` " ++
  "or `logging.handlers.WatchedFileHandler`."

/-- Mutable state of the shared logger `logging.getLogger("OTLPJsonFileExporter")`. -/
structure LoggerState where
  level : Nat
  propagate : Bool
  handlers : List Handler

/-- A logger freshly created by the logging module: level NOTSET, propagation
on, no handlers. -/
def freshLogger : LoggerState :=
  { level := 0, propagate := true, handlers := [] }

/-- Observable steps of one constructor run, used to state what the
invalid-class branch actually does. -/
inductive InitEvent where
  | builtMsg (msg : String)
  | createdStreamHandler
  | invokedHandlerCls (cls : String)
  | invocationRaised (err : String)
  | addedHandler
deriving DecidableEq

/-- Result of one `OTLPJsonFileExporter.__init__` run: the logger state after
the run (mutations before a raise persist, as in Python), the exception the
constructor propagated (if any), and the observable events. -/
structure InitResult where
  st : LoggerState
  error : Option String
  events : List InitEvent

/-- `OTLPJsonFileExporter.__init__`, lines 38-84 of the source: resolve kwargs,
set level DEBUG and `propagate = False` on the shared logger, and only if the
logger has no handlers build one handler — a `StreamHandler(sys.stdout)` when
`log_path == "stdout"`, otherwise `locate(log_handler_cls)` followed by the
validity check whose failure only assigns `msg` (there is no `raise` in the
source), then `klass(self.log_path, **kwargs)` unconditionally — and add it.
The `mkdir`, the dead `logging.Handler()` assignment and the
`"%(message)s"` formatter have no observable effect on these claims and are
not modelled. -/
def initExporter (log_path : String) (log_handler_cls : String)
    (log_handler_kwargs : PyVal) (env : String → Option Located)
    (st : LoggerState) : InitResult :=
  let kwargs := resolveLogHandlerKwargs log_handler_kwargs
  let st1 : LoggerState := { st with level := 10, propagate := false }
  if st1.handlers.isEmpty then
    if log_path = "stdout" then
      { st := { st1 with handlers := st1.handlers ++ [Handler.stream "stdout"] },
        error := Option.none,
        events := [InitEvent.createdStreamHandler, InitEvent.addedHandler] }
    else
      let klass := env log_handler_cls
      let events :=
        if classCheckPasses klass then ([] : List InitEvent)
        else [InitEvent.builtMsg (invalidMsg log_handler_cls)]
      match locateCall klass log_path kwargs with
      | Except.error e =>
          { st := st1, error := some e,
            events := events ++ [InitEvent.invocationRaised e] }
      | Except.ok h =>
          { st := { st1 with handlers := st1.handlers ++ [h] },
            error := Option.none,
            events := events ++ [InitEvent.invokedHandlerCls log_handler_cls,
                                 InitEvent.addedHandler] }
  else { st := st1, error := Option.none, events := [] }

/-- Arguments of one constructor call within a process. -/
structure InitCall where
  log_path : String
  log_handler_cls : String
  log_handler_kwargs : PyVal

/-- Run a sequence of constructor calls against the shared logger state
(logger mutations persist whether or not a call raised). -/
def runInits (env : String → Option Located) (calls : List InitCall)
    (st : LoggerState) : LoggerState :=
  calls.foldl
    (fun s c => (initExporter c.log_path c.log_handler_cls c.log_handler_kwargs env s).st)
    st

/-- Per-exporter state visible to `shutdown` (the instance attributes). -/
structure ExporterState where
  log_path : String
  loggerState : LoggerState

/-- `OTLPJsonFileExporter.shutdown`: the body is only a docstring, so the call
returns normally (second component `none`: no exception) with the state
untouched. -/
def shutdown (s : ExporterState) : ExporterState × Option String :=
  (s, Option.none)

/-- The state transformer of one `shutdown` call. -/
def shutdownState (s : ExporterState) : ExporterState :=
  (shutdown s).1

/-- A `locate` environment whose only known name is the default rotating
file-handler class, which constructs normally. -/
def rotatingEnv : String → Option Located :=
  fun s =>
    if s = "logging.handlers.RotatingFileHandler" then
      some { isType := true, isHandlerSubclass := true,
             call := fun p k =>
               Except.ok (Handler.fileHandler "logging.handlers.RotatingFileHandler" p k) }
    else Option.none

theorem initExporter_propagate (log_path cls : String) (kwargs : PyVal)
    (env : String → Option Located) (st : LoggerState) :
    (initExporter log_path cls kwargs env st).st.propagate = false := by
  unfold initExporter
  dsimp only
  split
  · split
    · rfl
    · split
      · rfl
      · rfl
  · rfl

theorem initExporter_handlers_le_one (log_path cls : String) (kwargs : PyVal)
    (env : String → Option Located) (st : LoggerState)
    (h : st.handlers.length ≤ 1) :
    (initExporter log_path cls kwargs env st).st.handlers.length ≤ 1 := by
  unfold initExporter
  dsimp only
  split
  · split
    · simp_all
    · split
      · simp_all
      · simp_all
  · simpa using h

theorem runInits_handlers_le_one (env : String → Option Located)
    (calls : List InitCall) (st : LoggerState) (h : st.handlers.length ≤ 1) :
    (runInits env calls st).handlers.length ≤ 1 := by
  induction calls generalizing st with
  | nil => exact h
  | cons c rest ih =>
      exact ih _ (initExporter_handlers_le_one c.log_path c.log_handler_cls
        c.log_handler_kwargs env st h)

theorem runInits_propagate (env : String → Option Located)
    (calls : List InitCall) (st : LoggerState) (h : calls ≠ []) :
    (runInits env calls st).propagate = false := by
  induction calls generalizing st with
  | nil => exact absurd rfl h
  | cons c rest ih =>
      cases rest with
      | nil =>
          exact initExporter_propagate c.log_path c.log_handler_cls
            c.log_handler_kwargs env st
      | cons c2 r2 => exact ih _ (List.cons_ne_nil c2 r2)

/-- Claim C1: if the sink write (the internal logger's `info` call) raises any
exception, `export` catches it, logs one warning naming the log path and the
error, and returns normally without propagating the exception. -/
theorem C1_export_absorbs_sink_error (sink : String → Except String Unit)
    (log_path : String) (batch : List LogData) (e : String)
    (h : sink (MessageToJson (_translate_data batch)) = Except.error e) :
    (export' sink log_path batch).raised = false ∧
    (export' sink log_path batch).warnings =
      ["Failed to write logs to file: " ++ log_path ++ ". Error: " ++ e] := by
  simp [export', h]

/-- Witness for C1 at a concrete always-failing sink. -/
theorem C1_export_absorbs_sink_error_witness :
    (export' (fun _ => Except.error "disk full") "logs/otel/service.log" []).raised = false ∧
    (export' (fun _ => Except.error "disk full") "logs/otel/service.log" []).warnings =
      ["Failed to write logs to file: " ++ "logs/otel/service.log" ++ ". Error: " ++
        "disk full"] :=
  C1_export_absorbs_sink_error (fun _ => Except.error "disk full")
    "logs/otel/service.log" [] "disk full" rfl

/-- Claim C2: the encoding stage of `export` (`_translate_data` followed by
`MessageToJson`) is deterministic and stateless: run twice in sequence on the
same batch it yields byte-for-byte identical payloads and leaves any state it
is threaded through unchanged. -/
theorem C2_encoding_deterministic_stateless (S : Type) (s : S) (batch : List LogData) :
    (encodingStage s batch).1 = (encodingStage (encodingStage s batch).2 batch).1 ∧
    ((encodingStage s batch).1).toUTF8 =
      ((encodingStage (encodingStage s batch).2 batch).1).toUTF8 ∧
    (encodingStage s batch).2 = s :=
  ⟨rfl, rfl, rfl⟩

/-- Claim C3: encoding never fails on empty input: `_translate_data` is total,
on the empty batch it returns the empty `ExportLogsServiceRequest`, and the
serialized payload is the empty JSON object. -/
theorem C3_encode_empty_batch :
    _translate_data ([] : List LogData) = { resourceLogs := [] } ∧
    MessageToJson (_translate_data []) = "\x7b\x7d" :=
  ⟨rfl, rfl⟩

/-- Claim C4 counterexample: with a sink that keeps failing with a transient
error, `export` makes exactly one write attempt — never a second one, so no
retry (for any positive `max_retries`) and no backoff happen — and the batch
is dropped at once; no dropped-batch counter exists in the code. -/
theorem C4_counterexample :
    (export' (fun _ => Except.error "disk full (transient)")
      "logs/otel/service.log" []).writeAttempts = 1 ∧
    ¬ 2 ≤ (export' (fun _ => Except.error "disk full (transient)")
      "logs/otel/service.log" []).writeAttempts ∧
    (export' (fun _ => Except.error "disk full (transient)")
      "logs/otel/service.log" []).delivered = false := by
  refine ⟨rfl, ?_, rfl⟩
  decide

/-- Claim C4 (amended): when the sink write fails — transiently or not — the
write is not retried: `export` makes a single attempt, the batch is dropped
(not delivered), and one warning is logged; no dropped-batch counter is
maintained. -/
theorem C4_single_attempt_drop_on_failure (sink : String → Except String Unit)
    (log_path : String) (batch : List LogData) (e : String)
    (h : sink (MessageToJson (_translate_data batch)) = Except.error e) :
    (export' sink log_path batch).writeAttempts = 1 ∧
    (export' sink log_path batch).delivered = false ∧
    (export' sink log_path batch).warnings ≠ [] := by
  simp [export', h]

/-- Witness for the amended C4 at a concrete transiently-failing sink. -/
theorem C4_single_attempt_drop_on_failure_witness :
    (export' (fun _ => Except.error "ENOSPC") "logs/a.log" []).writeAttempts = 1 ∧
    (export' (fun _ => Except.error "ENOSPC") "logs/a.log" []).delivered = false ∧
    (export' (fun _ => Except.error "ENOSPC") "logs/a.log" []).warnings ≠ [] :=
  C4_single_attempt_drop_on_failure (fun _ => Except.error "ENOSPC")
    "logs/a.log" [] "ENOSPC" rfl

/-- Claim C5: a failing sink write (e.g. a permanent error) is not retried —
exactly one attempt is made — and the failure surfaces immediately to the
export path: the `except` block of `export` receives precisely that error. -/
theorem C5_error_surfaces_to_export_no_retry (sink : String → Except String Unit)
    (log_path : String) (batch : List LogData) (e : String)
    (h : sink (MessageToJson (_translate_data batch)) = Except.error e) :
    (export' sink log_path batch).writeAttempts = 1 ∧
    (export' sink log_path batch).caughtError = some e := by
  simp [export', h]

/-- Witness for C5 at a concrete permanently-failing sink. -/
theorem C5_error_surfaces_to_export_no_retry_witness :
    (export' (fun _ => Except.error "permission denied") "/etc/x.log" []).writeAttempts = 1 ∧
    (export' (fun _ => Except.error "permission denied") "/etc/x.log" []).caughtError =
      some "permission denied" :=
  C5_error_surfaces_to_export_no_retry (fun _ => Except.error "permission denied")
    "/etc/x.log" [] "permission denied" rfl

/-- Claim C6 counterexample: construct a file-path exporter first, then an
exporter with `log_path = "stdout"` in the same process. The shared logger
still holds only the rotating file handler — no stdout stream handler — so the
second exporter's payloads are not written to standard output. -/
theorem C6_counterexample :
    let s1 := (initExporter "logs/service.log" "logging.handlers.RotatingFileHandler"
      PyVal.pyNone rotatingEnv freshLogger).st
    let s2 := (initExporter "stdout" "logging.handlers.RotatingFileHandler"
      PyVal.pyNone rotatingEnv s1).st
    s2.handlers.any isStreamStdout = false ∧ s2.handlers.length = 1 :=
  ⟨rfl, rfl⟩

/-- Claim C6 (amended): when the exporter is constructed with
`log_path = "stdout"` while the shared logger has no handlers yet, the
constructor succeeds, installs exactly one handler — a `StreamHandler` on
stdout — and creates no rotating file handler, so no rotation ever occurs for
that destination. -/
theorem C6_stdout_on_fresh_logger (cls : String) (kwargs : PyVal)
    (env : String → Option Located) (st : LoggerState) (h : st.handlers = []) :
    (initExporter "stdout" cls kwargs env st).error = Option.none ∧
    (initExporter "stdout" cls kwargs env st).st.handlers = [Handler.stream "stdout"] ∧
    (initExporter "stdout" cls kwargs env st).st.handlers.all isStreamStdout = true := by
  unfold initExporter
  dsimp only
  simp [h, isStreamStdout]

/-- Witness for the amended C6 on a fresh logger. -/
theorem C6_stdout_on_fresh_logger_witness :
    (initExporter "stdout" "logging.handlers.RotatingFileHandler" PyVal.pyNone
      rotatingEnv freshLogger).error = Option.none ∧
    (initExporter "stdout" "logging.handlers.RotatingFileHandler" PyVal.pyNone
      rotatingEnv freshLogger).st.handlers = [Handler.stream "stdout"] ∧
    (initExporter "stdout" "logging.handlers.RotatingFileHandler" PyVal.pyNone
      rotatingEnv freshLogger).st.handlers.all isStreamStdout = true :=
  C6_stdout_on_fresh_logger "logging.handlers.RotatingFileHandler" PyVal.pyNone
    rotatingEnv freshLogger rfl

/-- Claim C7: `shutdown` never throws and is a no-op: any number of iterated
calls returns normally (no exception) and leaves the exporter state unchanged,
so every call after the first is in particular a state-preserving no-op. -/
theorem C7_shutdown_idempotent_no_throw (s : ExporterState) (n : Nat) :
    (shutdown s).2 = Option.none ∧
    Nat.iterate shutdownState n s = s ∧
    shutdownState (shutdownState s) = shutdownState s := by
  refine ⟨rfl, ?_, rfl⟩
  induction n with
  | zero => rfl
  | succ k ih => exact ih

/-- Claim C8: when the located `log_handler_cls` object fails the handler-class
validity check, the constructor builds the "Invalid log handler class" message
but never raises it: it proceeds to invoke the located object, so any
propagated failure is exactly the invocation's failure, and on success the
invoked object's result is installed as the handler. -/
theorem C8_invalid_class_msg_discarded (log_path cls : String) (kwargs : PyVal)
    (env : String → Option Located) (st : LoggerState)
    (h1 : st.handlers = []) (h2 : log_path ≠ "stdout")
    (h3 : classCheckPasses (env cls) = false) :
    InitEvent.builtMsg (invalidMsg cls) ∈ (initExporter log_path cls kwargs env st).events ∧
    (∀ e, (initExporter log_path cls kwargs env st).error = some e →
      locateCall (env cls) log_path (resolveLogHandlerKwargs kwargs) = Except.error e) ∧
    ((initExporter log_path cls kwargs env st).error = Option.none →
      ∃ hd, locateCall (env cls) log_path (resolveLogHandlerKwargs kwargs) = Except.ok hd ∧
        (initExporter log_path cls kwargs env st).st.handlers = [hd]) := by
  unfold initExporter
  dsimp only
  rcases hcall : locateCall (env cls) log_path (resolveLogHandlerKwargs kwargs) with e | hd <;>
    simp [h1, h2, h3, hcall]

/-- Witness for C8: a dotted name that `locate` cannot resolve; the validation
message is built but the propagated error is the `TypeError` from calling
`None`. -/
theorem C8_invalid_class_msg_discarded_witness :
    InitEvent.builtMsg (invalidMsg "nonexistent.Cls") ∈
      (initExporter "logs/app.log" "nonexistent.Cls" PyVal.pyNone
        (fun _ => Option.none) freshLogger).events ∧
    locateCall ((fun _ => (Option.none : Option Located)) "nonexistent.Cls") "logs/app.log"
      (resolveLogHandlerKwargs PyVal.pyNone) =
      Except.error "TypeError: NoneType object is not callable" :=
  ⟨(C8_invalid_class_msg_discarded "logs/app.log" "nonexistent.Cls" PyVal.pyNone
      (fun _ => Option.none) freshLogger rfl (by decide) rfl).1,
   (C8_invalid_class_msg_discarded "logs/app.log" "nonexistent.Cls" PyVal.pyNone
      (fun _ => Option.none) freshLogger rfl (by decide) rfl).2.1
     "TypeError: NoneType object is not callable" rfl⟩

/-- Claim C9: a non-dict `log_handler_kwargs` argument (including the `None`
default) is silently replaced by the default kwargs
`maxBytes = 5*1024*1024, backupCount = 5`; a dict argument, even empty, is used
as given. -/
theorem C9_kwargs_default_substitution :
    (∀ v : PyVal, isDict v = false →
      resolveLogHandlerKwargs v = _DEFAULT_LOG_HANDLER_KWARGS) ∧
    (∀ d : List (String × PyVal), resolveLogHandlerKwargs (PyVal.pyDict d) = d) ∧
    _DEFAULT_LOG_HANDLER_KWARGS =
      [("maxBytes", PyVal.pyInt 5242880), ("backupCount", PyVal.pyInt 5)] ∧
    resolveLogHandlerKwargs PyVal.pyNone = _DEFAULT_LOG_HANDLER_KWARGS := by
  refine ⟨?_, ?_, ?_, rfl⟩
  · intro v h
    simp [resolveLogHandlerKwargs, h]
  · intro d
    rfl
  · norm_num [_DEFAULT_LOG_HANDLER_KWARGS]

/-- Witness for C9: the `None` default takes the default kwargs; the empty
dict stays empty. -/
theorem C9_kwargs_default_substitution_witness :
    resolveLogHandlerKwargs PyVal.pyNone = _DEFAULT_LOG_HANDLER_KWARGS ∧
    resolveLogHandlerKwargs (PyVal.pyDict []) = [] :=
  ⟨C9_kwargs_default_substitution.1 PyVal.pyNone rfl,
   C9_kwargs_default_substitution.2.1 []⟩

/-- Claim C10: after any nonempty sequence of constructor runs starting from
the fresh shared logger, the logger holds at most one handler and its
propagate flag is false; moreover a handler is added only when the logger
currently has none. -/
theorem C10_at_most_one_handler (env : String → Option Located)
    (calls : List InitCall) (h : calls ≠ []) :
    (runInits env calls freshLogger).handlers.length ≤ 1 ∧
    (runInits env calls freshLogger).propagate = false ∧
    (∀ log_path cls kwargs st, st.handlers ≠ [] →
      (initExporter log_path cls kwargs env st).st.handlers = st.handlers) := by
  refine ⟨runInits_handlers_le_one env calls freshLogger (by simp [freshLogger]),
    runInits_propagate env calls freshLogger h, ?_⟩
  intro log_path cls kwargs st hne
  have hemp : st.handlers.isEmpty = false := by
    cases hs : st.handlers with
    | nil => exact absurd hs hne
    | cons a t => rfl
  unfold initExporter
  dsimp only
  simp [hemp]

/-- Witness for C10: two constructions (stdout then a file path) leave one
handler and propagation off; a construction on a logger that already has a
handler changes nothing. -/
theorem C10_at_most_one_handler_witness :
    (runInits rotatingEnv
      [{ log_path := "stdout", log_handler_cls := "logging.handlers.RotatingFileHandler",
         log_handler_kwargs := PyVal.pyNone },
       { log_path := "logs/b.log", log_handler_cls := "logging.handlers.RotatingFileHandler",
         log_handler_kwargs := PyVal.pyNone }] freshLogger).handlers.length ≤ 1 ∧
    (runInits rotatingEnv
      [{ log_path := "stdout", log_handler_cls := "logging.handlers.RotatingFileHandler",
         log_handler_kwargs := PyVal.pyNone },
       { log_path := "logs/b.log", log_handler_cls := "logging.handlers.RotatingFileHandler",
         log_handler_kwargs := PyVal.pyNone }] freshLogger).propagate = false ∧
    (initExporter "logs/c.log" "logging.handlers.RotatingFileHandler" PyVal.pyNone
      rotatingEnv
      { level := 10, propagate := false,
        handlers := [Handler.stream "stdout"] }).st.handlers = [Handler.stream "stdout"] :=
  ⟨(C10_at_most_one_handler rotatingEnv _ (List.cons_ne_nil _ _)).1,
   (C10_at_most_one_handler rotatingEnv _ (List.cons_ne_nil _ _)).2.1,
   (C10_at_most_one_handler rotatingEnv
      [{ log_path := "stdout",
         log_handler_cls := "logging.handlers.RotatingFileHandler",
         log_handler_kwargs := PyVal.pyNone }] (List.cons_ne_nil _ _)).2.2
     "logs/c.log" "logging.handlers.RotatingFileHandler" PyVal.pyNone
     { level := 10, propagate := false, handlers := [Handler.stream "stdout"] }
     (List.cons_ne_nil _ _)⟩

end OtlpLogGen
